import Mathlib

/-!
Shallow embedding of `get_receipts.py` (receipt_data_collection_script).

The script is a linear pipeline: validate an OAuth token against a user-info
endpoint, paginate a message search, fetch each message, fetch each
attachment referenced by a message part, base64url-decode it, persist the
bytes to a local directory, and best-effort extract text from PDF/DOCX
attachments.

Modelling conventions:
- Python strings are `List Char` (`Str`), bytes are `List Nat` (`Bytes`).
- The network environment is a `World`: a record of the responses the
  endpoints would give (user-info status/text, the successive search page
  responses, message detail by id, attachment body by id).  The external
  document libraries (PyPDF2 / python-docx) are fields of the `World`
  giving, for each byte string, the extracted page texts / paragraph texts.
- JSON key absence is `Option` (`none` = key not present).
- The filesystem is an association list from path to bytes plus a list of
  created directories; a write conses, a read takes the first match (so the
  most recent write wins, matching overwrite on `open(..., 'wb')`).
- Every HTTP request is recorded in a `List Req` trace, in issue order.
- Exceptions are modelled by a `err : Option Str` field in the run outcome;
  the model raises the non-200 user-info one (mirroring
  `raise Exception(...)` at line 65 of the source) and the
  `binascii.Error` of the attachment decode at line 140, which aborts the
  remaining loop iterations and propagates out of the run.
- The dead local `body_content` (source lines 113-118) binds a decoded body
  that is never used; its normal path has no observable effect and is not
  modelled (its own possible decode exception on a malformed message body
  is likewise outside every claim here).
- `if not message` / falsy-id checks on a search result are modelled by
  skipping when the id field is absent or the empty string, which is
  observationally the same set of skipped iterations as in the source.
-/

namespace GetReceipts

abbrev Str := List Char
abbrev Bytes := List Nat

/-- Literal `"untitled.txt"`, the default filename (source line 124). -/
def untitledName : Str := "untitled.txt".toList

/-- Default `output_dir` of `save_attachment_locally` (source line 39). -/
def attachmentsDir : Str := "attachments".toList

/-- The sentinel returned for unsupported extensions (source line 36). -/
def unsupportedMsg : Str :=
  "Unsupported or no text extraction for this file type.".toList

def pdfExt : Str := ".pdf".toList

def docxExt : Str := ".docx".toList

/-- Message printed when the stripped token is empty (source line 165). -/
def noTokenMsg : Str := "No access token provided. Exiting.".toList

/-- Text of the exception raised on a non-200 user-info response
(source line 65). -/
def userInfoFailMsg (t : Str) : Str :=
  "Failed to fetch user info: ".toList ++ t

/-- Console line printed after a successful save (source line 50). -/
def savedMsg (p : Str) : Str := "Saved attachment: ".toList ++ p

/-- Console line printed before the extracted text (source line 147). -/
def extractedHeader (f : Str) : Str :=
  "Extracted text from ".toList ++ f ++ ":".toList

/-- Summary line for the number of messages found (source line 96). -/
def totalMessagesMsg (n : Nat) : Str :=
  "Total messages found: ".toList ++ (toString n).toList

/-- Summary line for the number of attachments processed (source line 152). -/
def totalAttachmentsMsg (n : Nat) : Str :=
  "Total attachments processed: ".toList ++ (toString n).toList

/-- Console line printed by the top-level handler (source line 171). -/
def errorOccurredMsg (e : Str) : Str := "An error occurred: ".toList ++ e

/-- ASCII whitespace as recognised by Python `str.strip()`:
space, tab, newline, carriage return, vertical tab, form feed. -/
def pyIsSpace (c : Char) : Bool :=
  c == ' ' || c == '\t' || c == '\n' || c == '\r' ||
    c == Char.ofNat 11 || c == Char.ofNat 12

/-- Python `str.strip()` (on ASCII whitespace): drop whitespace from both
ends. -/
def pyStrip (s : Str) : Str :=
  ((s.dropWhile pyIsSpace).reverse.dropWhile pyIsSpace).reverse

/-- The `binascii.Error` message for a data-character count that is 1 more
than a multiple of 4. -/
def invalidLengthMsg (n : Nat) : Str :=
  ("Invalid base64-encoded string: number of data characters (" ++
   toString n ++ ") cannot be 1 more than a multiple of 4").toList

/-- The `binascii.Error` message for a 2- or 3-character trailing group. -/
def incorrectPaddingMsg : Str := "Incorrect padding".toList

/-- Value of one standard base64 alphabet character (`A-Z a-z 0-9 + /`);
`none` for characters outside the alphabet (which `a2b_base64` skips in
non-strict mode). -/
def b64Val (c : Char) : Option Nat :=
  if 'A' ≤ c ∧ c ≤ 'Z' then some (c.toNat - 'A'.toNat)
  else if 'a' ≤ c ∧ c ≤ 'z' then some (c.toNat - 'a'.toNat + 26)
  else if '0' ≤ c ∧ c ≤ '9' then some (c.toNat - '0'.toNat + 52)
  else if c = '+' then some 62
  else if c = '/' then some 63
  else none

/-- CPython `binascii.a2b_base64` in non-strict mode, on state
(`quadPos`, `leftchar`, `pads`, output so far): a `=` when the current
quad holds at least 2 data characters and the pad count completes it ends
the decode successfully (remaining input ignored); other `=` and
non-alphabet characters are skipped; each data character resets the pad
count and advances the quad, emitting a byte on the 2nd, 3rd and 4th
sextet; input ending mid-quad raises `binascii.Error` — the message for a
single leftover sextet counts the data characters, otherwise it is the
incorrect-padding one. -/
def a2b_base64 : Str → Nat → Nat → Nat → Bytes → Except Str Bytes
  | [], quadPos, _, _, acc =>
    if quadPos = 0 then Except.ok acc
    else if quadPos = 1 then
      Except.error (invalidLengthMsg (acc.length / 3 * 4 + 1))
    else Except.error incorrectPaddingMsg
  | c :: rest, quadPos, leftchar, pads, acc =>
    if c = '=' then
      if 2 ≤ quadPos ∧ 4 ≤ quadPos + (pads + 1) then Except.ok acc
      else if 2 ≤ quadPos then a2b_base64 rest quadPos leftchar (pads + 1) acc
      else a2b_base64 rest quadPos leftchar pads acc
    else
      match b64Val c with
      | none => a2b_base64 rest quadPos leftchar pads acc
      | some v =>
        match quadPos with
        | 0 => a2b_base64 rest 1 v 0 acc
        | 1 => a2b_base64 rest 2 (v % 16) 0 (acc ++ [leftchar * 4 + v / 16])
        | 2 => a2b_base64 rest 3 (v % 4) 0 (acc ++ [leftchar * 16 + v / 4])
        | _ => a2b_base64 rest 0 0 0 (acc ++ [leftchar * 64 + v])

/-- `base64.urlsafe_b64decode` (called at source lines 118 and 140):
translate `-` to `+` and `_` to `/`, then run `a2b_base64`; an `error`
result models the `binascii.Error` exception. -/
def urlsafe_b64decode (s : Str) : Except Str Bytes :=
  a2b_base64
    (s.map (fun c => if c = '-' then '+' else if c = '_' then '/' else c))
    0 0 0 []

/-- `filename.replace("/", "")` (source line 46): every occurrence of the
separator is removed, which is exactly a character filter. -/
def cleaned_filename (filename : Str) : Str :=
  filename.filter (fun c => c ≠ '/')

/-- POSIX `os.path.join` on two components (source line 47): an absolute
second component replaces the first; otherwise a `/` is inserted unless the
first component is empty or already ends in `/`. -/
def posixJoin (dir name : Str) : Str :=
  if name.head? = some '/' then name
  else if dir = [] then name
  else if dir.getLast? = some '/' then dir ++ name
  else dir ++ '/' :: name

/-- The local filesystem: written files (most recent first) and the set of
directories created so far. -/
structure FSState where
  files : List (Str × Bytes)
  dirs : List Str
deriving DecidableEq

def fsEmpty : FSState := { files := [], dirs := [] }

/-- `save_attachment_locally` (source lines 39-50): create the output
directory if absent, strip `/` from the filename, join, write the bytes.
Returns the new filesystem and the path written (the path is what the
`Saved attachment:` print shows; the caller emits that line). -/
def save_attachment_locally (filename : Str) (data : Bytes)
    (output_dir : Str) (fs : FSState) : FSState × Str :=
  let fs1 := if output_dir ∈ fs.dirs then fs
             else { fs with dirs := output_dir :: fs.dirs }
  let filepath := posixJoin output_dir (cleaned_filename filename)
  ({ fs1 with files := (filepath, data) :: fs1.files }, filepath)

/-- `extract_text_from_pdf` (source lines 9-17), at the level where PyPDF2
has produced the per-page `extract_text()` results: `None` (modelled
`none`) is replaced by `""` via the `or ""`, and the pieces are
accumulated with `+=` in page order. -/
def extract_text_from_pdf (pages : List (Option Str)) : Str :=
  pages.foldl (fun text p => text ++ p.getD []) []

/-- `extract_text_from_docx` (source lines 20-26), at the level where
python-docx has produced the paragraph texts: each paragraph text plus a
newline is accumulated with `+=` in paragraph order. -/
def extract_text_from_docx (paragraphs : List Str) : Str :=
  paragraphs.foldl (fun text para => text ++ para ++ ['\n']) []

/-- `extract_text_from_attachment` (source lines 29-36): dispatch on the
lowercased filename's extension.  The two library parsers (bytes to page
texts, bytes to paragraph texts) are passed in, since PyPDF2/python-docx
are external to this repository.  `str.lower` is modelled per character
(faithful on ASCII). -/
def extract_text_from_attachment (parsePdf : Bytes → List (Option Str))
    (parseDocx : Bytes → List Str) (filename : Str) (data : Bytes) : Str :=
  if pdfExt.isSuffixOf (filename.map Char.toLower) then
    extract_text_from_pdf (parsePdf data)
  else if docxExt.isSuffixOf (filename.map Char.toLower) then
    extract_text_from_docx (parseDocx data)
  else unsupportedMsg

/-- A message reference returned by the search endpoint: the `"id"` field,
`none` when the key is absent. -/
structure Msg where
  id : Option Str
deriving DecidableEq

/-- One response of the message-search endpoint: the optional `"messages"`
array and the optional `"nextPageToken"` continuation token. -/
structure Page where
  messages : Option (List Msg)
  nextPageToken : Option Str
deriving DecidableEq

/-- The `"body"` object of a message part: optional `"data"` and optional
`"attachmentId"` fields. -/
structure Body where
  data : Option Str
  attachmentId : Option Str
deriving DecidableEq

/-- A message part: optional `"body"` object and optional `"filename"`. -/
structure Part where
  body : Option Body
  filename : Option Str
deriving DecidableEq

/-- A message payload: optional `"body"` and optional `"parts"`. -/
structure Payload where
  body : Option Body
  parts : Option (List Part)
deriving DecidableEq

/-- A message-detail response: optional `"payload"`. -/
structure MessageData where
  payload : Option Payload
deriving DecidableEq

/-- An attachment-body response: optional `"data"` field holding the
base64url string. -/
structure AttachResp where
  data : Option Str
deriving DecidableEq

/-- One HTTP request issued by the script, as it appears in the trace.
`search` records the `pageToken` URL parameter (absent on the first
request, and also when the current token is the empty string, because of
the falsy `if page_token:` at source line 82). -/
inductive Req where
  | userInfo : Req
  | search : Option Str → Req
  | messageDetail : Str → Req
  | attachment : Str → Str → Req
deriving DecidableEq

/-- The fixed Gmail search query (source lines 68-73). -/
def user_query : Str :=
  ("(subject:\"your order\" OR subject:receipts OR subject:receipt " ++
   "OR subject:invoice OR subject:invoices OR subject:\"insurance\" " ++
   "OR subject:\"health report\" OR category:purchases OR label:receipts " ++
   "OR label:invoices OR label:insurance OR label:health) has:attachment").toList

/-- The environment: what each endpoint would answer (`searchPages` lists
the successive responses to the search requests, in order), plus the
behaviour of the two external document libraries on given bytes. -/
structure World where
  userInfoStatus : Nat
  userInfoText : Str
  searchPages : List Page
  messageData : Str → MessageData
  attachmentData : Str → Str → AttachResp
  parsePdf : Bytes → List (Option Str)
  parseDocx : Bytes → List Str

/-- The `pageToken` URL parameter for a search request: `page_token` is
appended to the URL only when truthy (source lines 82-83). -/
def urlToken : Option Str → Option Str
  | some t => if t = [] then none else some t
  | none => none

/-- The pagination loop (source lines 76-94) run against the finite list
of responses the server gives to the successive search requests.  Each
iteration issues one request, appends the page's `messages` array when
present, and continues exactly when a `nextPageToken` is present.  If the
response list runs out the accumulated results are returned. -/
def paginate : List Page → Option Str → List Msg → List Req →
    List Msg × List Req
  | [], _, msgs, tr => (msgs, tr)
  | p :: rest, tok, msgs, tr =>
    let tr' := tr ++ [Req.search (urlToken tok)]
    let msgs' := match p.messages with
      | some ms => msgs ++ ms
      | none => msgs
    match p.nextPageToken with
    | some t => paginate rest (some t) msgs' tr'
    | none => (msgs', tr')

/-- State threaded through the message/attachment loops: filesystem,
`attachment_count`, request trace, console output lines, and the pending
exception if one has been raised (`binascii.Error` from the attachment
decode); once `exn` is set the enclosing loops run no further iteration
bodies, modelling propagation out of `fetch_and_save_attachments`. -/
structure LoopSt where
  fs : FSState
  count : Nat
  trace : List Req
  out : List Str
  exn : Option Str
deriving DecidableEq

/-- Processing of one message part (source lines 121-150): when the part
has a `body` with an `attachmentId`, fetch the attachment; skip when the
response's `data` is absent or empty (falsy check at line 136); otherwise
decode — a `binascii.Error` raises, recorded in `exn` — then save, print,
extract, print, and increment the counter. -/
def processPart (w : World) (mid : Str) (part : Part) (st : LoopSt) :
    LoopSt :=
  match part.body with
  | none => st
  | some bd =>
    match bd.attachmentId with
    | none => st
    | some aid =>
      let filename := part.filename.getD untitledName
      let resp := w.attachmentData mid aid
      let st := { st with trace := st.trace ++ [Req.attachment mid aid] }
      match resp.data with
      | none => st
      | some b64 =>
        if b64 = [] then st
        else
          match urlsafe_b64decode b64 with
          | Except.error e => { st with exn := some e }
          | Except.ok content =>
            let saved := save_attachment_locally filename content
              attachmentsDir st.fs
            { st with
              fs := saved.1,
              out := st.out ++ [savedMsg saved.2, extractedHeader filename,
                extract_text_from_attachment w.parsePdf w.parseDocx
                  filename content],
              count := st.count + 1 }

/-- Processing of one search result (source lines 100-150): skip falsy
messages and falsy ids, fetch the message detail, and fold over the
payload's parts when present. -/
def processMessage (w : World) (msg : Msg) (st : LoopSt) : LoopSt :=
  match msg.id with
  | none => st
  | some mid =>
    if mid = [] then st
    else
      let md := w.messageData mid
      let st := { st with trace := st.trace ++ [Req.messageDetail mid] }
      match md.payload with
      | none => st
      | some pl =>
        match pl.parts with
        | none => st
        | some parts =>
          parts.foldl
            (fun s p => if s.exn.isSome then s else processPart w mid p s) st

/-- Outcome of a `fetch_and_save_attachments` run: the request trace, the
console output, the final filesystem, the exception raised if any, and the
final `attachment_count`. -/
structure RunOutcome where
  trace : List Req
  out : List Str
  fs : FSState
  err : Option Str
  attachmentCount : Nat
deriving DecidableEq

/-- `fetch_and_save_attachments` (source lines 53-152): verify the user
info (raising on a non-200 status before anything else), paginate the
search, then process every message.  The `accessToken` goes into every
request's Authorization header; the responses themselves are given by `w`. -/
def fetch_and_save_attachments (accessToken : Str) (w : World)
    (fs0 : FSState) : RunOutcome :=
  let tr0 : List Req := [Req.userInfo]
  if w.userInfoStatus ≠ 200 then
    { trace := tr0, out := [], fs := fs0,
      err := some (userInfoFailMsg w.userInfoText), attachmentCount := 0 }
  else
    let pag := paginate w.searchPages none [] tr0
    let st0 : LoopSt :=
      { fs := fs0, count := 0, trace := pag.2,
        out := [totalMessagesMsg pag.1.length], exn := none }
    let st := pag.1.foldl
      (fun s m => if s.exn.isSome then s else processMessage w m s) st0
    match st.exn with
    | some e =>
      { trace := st.trace, out := st.out, fs := st.fs, err := some e,
        attachmentCount := st.count }
    | none =>
      { trace := st.trace, out := st.out ++ [totalAttachmentsMsg st.count],
        fs := st.fs, err := none, attachmentCount := st.count }

/-- Observable outcome of a whole `main` run. -/
structure MainOutcome where
  out : List Str
  trace : List Req
  fs : FSState
deriving DecidableEq

/-- `main` (source lines 155-171): read and strip the token and the brand
name, exit early with a message when the stripped token is empty,
otherwise run the fetch and print any exception it raises. -/
def main (tokenInput brandInput : Str) (w : World) (fs0 : FSState) :
    MainOutcome :=
  let access_token_new := pyStrip tokenInput
  let brand_name := pyStrip brandInput
  if access_token_new = [] then
    { out := [noTokenMsg], trace := [], fs := fs0 }
  else
    let r := fetch_and_save_attachments access_token_new w fs0
    match r.err with
    | some e =>
      { out := r.out ++ [errorOccurredMsg e], trace := r.trace,
        fs := r.fs }
    | none => { out := r.out, trace := r.trace, fs := r.fs }

/-! Concrete inputs used by the witness theorems. -/

/-- A world whose user-info endpoint denies the token with status 401. -/
def wBadAuth : World :=
  { userInfoStatus := 401, userInfoText := "denied".toList,
    searchPages := [], messageData := fun _ => { payload := none },
    attachmentData := fun _ _ => { data := none },
    parsePdf := fun _ => [], parseDocx := fun _ => [] }

/-- A world whose attachment endpoint always answers with the base64url
payload of `"hello"`. -/
def wHello : World :=
  { userInfoStatus := 200, userInfoText := [],
    searchPages := [], messageData := fun _ => { payload := none },
    attachmentData := fun _ _ => { data := some "aGVsbG8=".toList },
    parsePdf := fun _ => [], parseDocx := fun _ => [] }

/-- Two pages carrying a continuation token, for the pagination witness. -/
def pagesA : List Page :=
  [{ messages := some [{ id := some "m1".toList }],
     nextPageToken := some "t2".toList },
   { messages := none, nextPageToken := some "t3".toList }]

/-- A final page with no continuation token. -/
def pageB : Page :=
  { messages := some [{ id := some "m2".toList }, { id := some "m3".toList }],
    nextPageToken := none }

/-- Responses beyond the tokenless page, which the loop must not consume. -/
def pagesC : List Page :=
  [{ messages := some [{ id := some "m9".toList }], nextPageToken := none }]

/-! ## Claim theorems -/

/-- C1: for every filename string, the persister's sanitisation strips the
path separator, so the sanitised name used in the joined path contains no
`/`, and joining it to the configured output directory yields exactly
`output dir / name` — a path directly inside that directory. -/
theorem sanitized_filename_stays_in_output_dir (f : Str) :
    '/' ∉ cleaned_filename f ∧
    posixJoin attachmentsDir (cleaned_filename f)
      = attachmentsDir ++ '/' :: cleaned_filename f := by
  have hmem : '/' ∉ cleaned_filename f := by
    simp [cleaned_filename]
  refine ⟨hmem, ?_⟩
  have hhead : ¬(cleaned_filename f).head? = some '/' := by
    intro h
    cases hc : cleaned_filename f with
    | nil => rw [hc] at h; simp at h
    | cons a t =>
      rw [hc] at h
      simp at h
      exact hmem (by rw [hc, h]; exact List.mem_cons_self _ _)
  unfold posixJoin
  rw [if_neg hhead, if_neg (by decide), if_neg (by decide)]

/-- Auxiliary to C2: running the pagination loop on a response stream that
starts with token-bearing pages `qs`, then a tokenless page `q`, then
anything, from any starting token and accumulators: the loop consumes
exactly `qs ++ [q]`, appends their `messages` arrays in order, and issues
one search request per visited page. -/
theorem paginate_split (q : Page) (rest : List Page)
    (h2 : q.nextPageToken = none) :
    ∀ (qs : List Page) (tok : Option Str) (msgs : List Msg) (tr : List Req),
      (∀ p ∈ qs, (p.nextPageToken).isSome = true) →
      (paginate (qs ++ q :: rest) tok msgs tr).1
          = msgs ++ ((qs ++ [q]).map (fun p => (p.messages).getD [])).flatten
        ∧ (paginate (qs ++ q :: rest) tok msgs tr).2.length
          = tr.length + (qs.length + 1) := by
  intro qs
  induction qs with
  | nil =>
    intro tok msgs tr _
    cases hm : q.messages <;> simp [paginate, h2, hm]
  | cons p qs ih =>
    intro tok msgs tr h1
    obtain ⟨t, ht⟩ :=
      Option.isSome_iff_exists.mp (h1 p (List.mem_cons_self _ _))
    have h1' : ∀ r ∈ qs, (r.nextPageToken).isSome = true :=
      fun r hr => h1 r (List.mem_cons_of_mem _ hr)
    have step : paginate ((p :: qs) ++ q :: rest) tok msgs tr
        = paginate (qs ++ q :: rest) (some t) (msgs ++ (p.messages).getD [])
            (tr ++ [Req.search (urlToken tok)]) := by
      cases hm : p.messages <;> simp [paginate, ht, hm]
    rcases ih (some t) (msgs ++ (p.messages).getD [])
        (tr ++ [Req.search (urlToken tok)]) h1' with ⟨ha, hb⟩
    rw [step]
    constructor
    · rw [ha]; simp
    · rw [hb]; simp; omega

/-- C2: for a finite response stream whose pages `qs` all carry a
continuation token followed by a page `q` without one (and then any
further responses), the pagination loop terminates exactly at `q`: it
issues one search request per page of `qs ++ [q]` and never touches the
rest, and the accumulated message list is the concatenation of the visited
pages' `messages` arrays in response order. -/
theorem pagination_concat_and_stops_at_tokenless_page
    (qs : List Page) (q : Page) (rest : List Page)
    (h1 : ∀ p ∈ qs, (p.nextPageToken).isSome = true)
    (h2 : q.nextPageToken = none) :
    (paginate (qs ++ q :: rest) none [] []).1
        = ((qs ++ [q]).map (fun p => (p.messages).getD [])).flatten
      ∧ (paginate (qs ++ q :: rest) none [] []).2.length = qs.length + 1 := by
  simpa using paginate_split q rest h2 qs none [] [] h1

/-- Witness for C2 on a concrete three-page stream (plus one response
beyond the tokenless page that must not be consumed). -/
theorem pagination_concat_witness :
    pageB.nextPageToken = none ∧
    ((paginate (pagesA ++ pageB :: pagesC) none [] []).1
        = ((pagesA ++ [pageB]).map (fun p => (p.messages).getD [])).flatten
      ∧ (paginate (pagesA ++ pageB :: pagesC) none [] []).2.length
        = pagesA.length + 1) :=
  ⟨rfl, pagination_concat_and_stops_at_tokenless_page pagesA pageB pagesC
    (by decide) rfl⟩

/-- C3: the persister writes the given byte sequence verbatim: reading the
path it just wrote returns exactly those bytes. -/
theorem save_roundtrip_exact_bytes (f : Str) (d : Bytes) (dir : Str)
    (fs : FSState) :
    ((save_attachment_locally f d dir fs).1).files.lookup
        (save_attachment_locally f d dir fs).2 = some d := by
  simp [save_attachment_locally, List.lookup]

/-- C5: a non-200 user-info response makes the run raise the
authentication error, and the trace consists of the user-info request
alone — in particular no message-search request is ever issued. -/
theorem non200_userinfo_aborts_before_search (tok : Str) (w : World)
    (fs0 : FSState) (h : w.userInfoStatus ≠ 200) :
    (fetch_and_save_attachments tok w fs0).trace = [Req.userInfo]
      ∧ (fetch_and_save_attachments tok w fs0).err
          = some (userInfoFailMsg w.userInfoText) := by
  simp [fetch_and_save_attachments, h]

/-- Witness for C5: a 401 user-info response aborts with the error and a
trace containing only the user-info request. -/
theorem non200_userinfo_aborts_witness :
    wBadAuth.userInfoStatus ≠ 200 ∧
    ((fetch_and_save_attachments "tok".toList wBadAuth fsEmpty).trace
        = [Req.userInfo]
      ∧ (fetch_and_save_attachments "tok".toList wBadAuth fsEmpty).err
          = some (userInfoFailMsg wBadAuth.userInfoText)) :=
  ⟨by decide,
   non200_userinfo_aborts_before_search "tok".toList wBadAuth fsEmpty
     (by decide)⟩

/-- C6: for a filename that does not end in `.pdf` or `.docx` after
lowercasing, extraction returns the fixed unsupported-type sentinel,
whatever the byte content and whatever the two document libraries would
do. -/
theorem non_pdf_docx_extension_yields_sentinel
    (parsePdf : Bytes → List (Option Str)) (parseDocx : Bytes → List Str)
    (f : Str) (d : Bytes)
    (hp : pdfExt.isSuffixOf (f.map Char.toLower) = false)
    (hdocx : docxExt.isSuffixOf (f.map Char.toLower) = false) :
    extract_text_from_attachment parsePdf parseDocx f d = unsupportedMsg := by
  simp [extract_text_from_attachment, hp, hdocx]

/-- Witness for C6: a `.PNG` filename yields the sentinel. -/
theorem non_pdf_docx_sentinel_witness :
    pdfExt.isSuffixOf ("photo.PNG".toList.map Char.toLower) = false ∧
    docxExt.isSuffixOf ("photo.PNG".toList.map Char.toLower) = false ∧
    extract_text_from_attachment (fun _ => [some "x".toList])
      (fun _ => ["y".toList]) "photo.PNG".toList [0, 255] = unsupportedMsg :=
  ⟨by decide, by decide,
   non_pdf_docx_extension_yields_sentinel _ _ "photo.PNG".toList [0, 255]
     (by decide) (by decide)⟩

/-- Auxiliary to C7: the DOCX accumulation fold, from any accumulator,
appends paragraph text plus newline per paragraph in order. -/
theorem docx_fold_general (ps : List Str) (acc : Str) :
    ps.foldl (fun text para => text ++ para ++ ['\n']) acc
      = acc ++ (ps.map (fun p => p ++ ['\n'])).flatten := by
  induction ps generalizing acc with
  | nil => simp
  | cons p ps ih =>
    rw [List.foldl_cons, ih]
    simp

/-- C7: DOCX extraction concatenates paragraph text followed by a newline
over all paragraphs in order; on paragraphs `["A", "B"]` it returns
`"A\nB\n"`. -/
theorem docx_extraction_concat_paragraphs_newline :
    extract_text_from_docx ["A".toList, "B".toList] = "A\nB\n".toList
      ∧ ∀ ps : List Str, extract_text_from_docx ps
          = (ps.map (fun p => p ++ ['\n'])).flatten := by
  refine ⟨by decide, fun ps => ?_⟩
  simpa [extract_text_from_docx] using docx_fold_general ps []

/-- C9: the brand-name console input never influences behaviour: two runs
identical except for the brand string produce identical outcomes (output,
request trace and filesystem). -/
theorem brand_name_is_dead_parameter (tokenInput b1 b2 : Str) (w : World)
    (fs0 : FSState) :
    main tokenInput b1 w fs0 = main tokenInput b2 w fs0 := rfl

/-- C10: when the access token is empty after stripping whitespace, `main`
prints the no-token message and returns at once: no request is issued and
the filesystem (files and directories) is untouched. -/
theorem empty_token_early_exit (tokenInput brandInput : Str) (w : World)
    (fs0 : FSState) (h : pyStrip tokenInput = []) :
    main tokenInput brandInput w fs0
      = { out := [noTokenMsg], trace := [], fs := fs0 } := by
  simp [main, h]

/-- Witness for C10: a whitespace-only token input exits early against a
world that would otherwise answer requests. -/
theorem empty_token_early_exit_witness :
    pyStrip "  \t ".toList = [] ∧
    main "  \t ".toList "Acme".toList wHello fsEmpty
      = { out := [noTokenMsg], trace := [], fs := fsEmpty } :=
  ⟨by decide,
   empty_token_early_exit "  \t ".toList "Acme".toList wHello fsEmpty
     (by decide)⟩

end GetReceipts
